import Mathlib

/-!
Verification development for the pyETA toolbox core: the one-euro adaptive
filter and fixation classifier (`track.py`, `utils.py`), the live stream
buffers (`reader.py`), and the offline validation-statistics engine
(`validate.py`).  Python floats are modelled by `ℝ` (timestamps of the
validation pipeline and of the reader, which are only compared and shifted,
by `ℚ`); pixel counts produced by `int(...)` by `ℤ`.
-/

namespace PyETA

/-! ### One-euro filter — `EyeTrackerAnalyzer/components/utils.py`, class `OneEuroFilter` -/

/-- The filter's state and fixed parameters, as held on the Python object. -/
structure OneEuroFilter where
  previous_value : ℝ
  previous_derivative : ℝ
  previous_time : ℝ
  min_cutoff : ℝ
  beta : ℝ
  derivative_cutoff : ℝ

/-- `OneEuroFilter.smoothing_factor`: `r = 2·π·cutoff_frequency·time_elapsed`, result `r/(r+1)`. -/
noncomputable def smoothing_factor (time_elapsed cutoff_frequency : ℝ) : ℝ :=
  let r := 2 * Real.pi * cutoff_frequency * time_elapsed
  r / (r + 1)

/-- `OneEuroFilter.exp_smoothing`: `alpha * current + (1 - alpha) * previous`. -/
def exp_smoothing (alpha current_value previous_value : ℝ) : ℝ :=
  alpha * current_value + (1 - alpha) * previous_value

/-- `OneEuroFilter.__call__`: returns the filtered value and the mutated state. -/
noncomputable def OneEuroFilter.call (f : OneEuroFilter) (current_time current_value : ℝ) :
    ℝ × OneEuroFilter :=
  let time_elapsed := current_time - f.previous_time
  let alpha_derivative := smoothing_factor time_elapsed f.derivative_cutoff
  let current_derivative := (current_value - f.previous_value) / time_elapsed
  let filtered_derivative :=
    exp_smoothing alpha_derivative current_derivative f.previous_derivative
  let adaptive_cutoff := f.min_cutoff + f.beta * |filtered_derivative|
  let alpha := smoothing_factor time_elapsed adaptive_cutoff
  let filtered_value := exp_smoothing alpha current_value f.previous_value
  (filtered_value,
    { f with
      previous_value := filtered_value
      previous_derivative := filtered_derivative
      previous_time := current_time })

/-! ### Fixation classifier — `pyETA/components/track.py`, `Tracker._update_fixation_data` -/

/-- The dataclass `FixationTuple` (the Python defaults for `x`, `y`,
`filtered_x`, `filtered_y`, `timestamp` are `np.nan`; a state is constructed
explicitly here, so no default is modelled for them). -/
structure FixationTuple where
  is_fixated : Bool
  velocity : ℝ
  x : ℝ
  y : ℝ
  filtered_x : ℝ
  filtered_y : ℝ
  timestamp : ℝ
  elapsed_time : ℝ
  duration : ℝ

/-- The per-eye state `Tracker` holds: the `FixationTuple` plus the two
per-axis one-euro filters of `self.__one_euro_filter`. -/
structure EyeState where
  fix : FixationTuple
  filter_x : OneEuroFilter
  filter_y : OneEuroFilter

/-- `Tracker._update_fixation_data` for one eye: `previous_t` is the minimum
of the two filters' `previous_time` (read before the filters run), the two
axes are filtered, and the inner `calculate` computes
`velocity = sqrt((filtered_x - x)² + (filtered_y - y)²) / (t - previous_t)`,
`is_fixated = velocity ≤ velocity_threshold`.  The `FixationTuple` is then
rewritten field by field exactly as in the source:
`timestamp = t if not is_fixated else old.timestamp` and
`duration = old.duration + elapsed_time if is_fixated else 0`. -/
noncomputable def update_fixation_data (velocity_threshold : ℝ) (st : EyeState)
    (t x y : ℝ) : EyeState :=
  let previous_t := min st.filter_x.previous_time st.filter_y.previous_time
  let rx := st.filter_x.call t x
  let ry := st.filter_y.call t y
  let distance := Real.sqrt ((rx.1 - x) ^ 2 + (ry.1 - y) ^ 2)
  let elapsed_time := t - previous_t
  let velocity := distance / elapsed_time
  let is_fixated : Bool := if velocity ≤ velocity_threshold then true else false
  { fix :=
      { is_fixated := is_fixated
        velocity := velocity
        x := x
        y := y
        filtered_x := rx.1
        filtered_y := ry.1
        timestamp := if is_fixated then st.fix.timestamp else t
        elapsed_time := elapsed_time
        duration := if is_fixated then st.fix.duration + elapsed_time else 0 }
    filter_x := rx.2
    filter_y := ry.2 }

/-- A run of the classifier over a sample list `(t, x, y)`, keeping every
intermediate state (head = the starting state). -/
noncomputable def fixation_run (velocity_threshold : ℝ) (st : EyeState)
    (samples : List (ℝ × ℝ × ℝ)) : List EyeState :=
  samples.scanl (fun s p => update_fixation_data velocity_threshold s p.1 p.2.1 p.2.2) st

/-- A concrete filter state: value 0, derivative 0, time 0, with the
parameters `Tracker.__init__` uses (`min_cutoff = 0.004`, `beta = 0.7`,
default `derivative_cutoff = 1`). -/
noncomputable def sampleFilter0 : OneEuroFilter :=
  { previous_value := 0
    previous_derivative := 0
    previous_time := 0
    min_cutoff := 4 / 1000
    beta := 7 / 10
    derivative_cutoff := 1 }

/-- A concrete eye state whose fixation-onset timestamp is 99. -/
noncomputable def sampleEyeState : EyeState :=
  { fix :=
      { is_fixated := false
        velocity := 0
        x := 0
        y := 0
        filtered_x := 0
        filtered_y := 0
        timestamp := 99
        elapsed_time := 0
        duration := 0 }
    filter_x := sampleFilter0
    filter_y := sampleFilter0 }

/-! ### Validation statistics — `pyETA/components/validate.py`

Timestamps are modelled by `ℚ` (the pipeline only compares and shifts them;
`pd.to_datetime(unit = 's')` is an order-preserving re-labelling),
coordinates by `ℝ`.  The screen resolution of the gaze recording and the
window resolution of the target schedule are the class attributes
`ValidateData.screen` / `ValidateData.window`, passed here explicitly. -/

/-- One eye of a persisted gaze record — the validation pipeline reads only
`gaze_point` (normalized display coordinates). -/
structure EyeRecord where
  gaze_point : ℝ × ℝ

/-- One row of the persisted gaze log (`df_gaze_data`): the fields the
pipeline touches. -/
structure GazeRecord where
  timestamp : ℚ
  left_eye : EyeRecord
  right_eye : EyeRecord

/-- One row of the persisted validation-target schedule (`df_validate_data`):
display timestamp and window-pixel position. -/
structure TargetRecord where
  timestamp : ℚ
  screen_position : ℝ × ℝ

/-- Modelled from the spec: `pyETA/components/utils.py` is not in the source
tree; `get_relative_from_actual(point, w, h)` normalizes a pixel position
relative to the screen (spec §4.4 step 2, "then normalize relative to that
screen"). -/
noncomputable def get_relative_from_actual (point : ℝ × ℝ) (w h : ℝ) : ℝ × ℝ :=
  (point.1 / w, point.2 / h)

/-- Modelled from the spec: `pyETA/components/utils.py` is not in the source
tree; `get_actual_from_relative(point, w, h)` rescales a normalized position
back into pixel space. -/
noncomputable def get_actual_from_relative (point : ℝ × ℝ) (w h : ℝ) : ℝ × ℝ :=
  (point.1 * w, point.2 * h)

/-- Modelled from the spec: `pyETA/components/utils.py` is not in the source
tree; `get_distance` is the Euclidean distance, the polar offset magnitude of
spec §4.4 step 4 / glossary "polar/euler form". -/
noncomputable def get_distance (p q : ℝ × ℝ) : ℝ :=
  Real.sqrt ((p.1 - q.1) ^ 2 + (p.2 - q.2) ^ 2)

/-- `convert_window_to_screen_coordinates`: window pixels → screen pixels by
the ratio of the two resolutions. -/
noncomputable def convert_window_to_screen_coordinates (screen window : ℝ × ℝ) (point : ℝ × ℝ) : ℝ × ℝ :=
  (point.1 / window.1 * screen.1, point.2 / window.2 * screen.2)

/-- A target row after `load_data` (which numbers the rows: `group` is the
row index) and `preprocess_data` (which adds `timestamp_2 = timestamp_0 + 2s`,
the recalibrated screen position and its normalized form). -/
structure PreparedTarget where
  group : ℕ
  timestamp_0 : ℚ
  timestamp_2 : ℚ
  screen_position_recalibrated : ℝ × ℝ
  target_relative : ℝ × ℝ

/-- `load_data`'s row numbering plus `preprocess_data`, applied to every
target row. -/
noncomputable def preprocess_data (screen window : ℝ × ℝ) (targets : List TargetRecord) :
    List PreparedTarget :=
  targets.enum.map fun p =>
    let recalibrated := convert_window_to_screen_coordinates screen window p.2.screen_position
    { group := p.1
      timestamp_0 := p.2.timestamp
      timestamp_2 := p.2.timestamp + 2
      screen_position_recalibrated := recalibrated
      target_relative := get_relative_from_actual recalibrated screen.1 screen.2 }

/-- The row filter of `filter_and_group_data`:
`timestamp_0 ≥ row.timestamp_0 and timestamp_0 ≤ row.timestamp_2` (a closed
interval — both comparisons are inclusive in the source). -/
def in_window (tr : PreparedTarget) (g : GazeRecord) : Bool :=
  decide (tr.timestamp_0 ≤ g.timestamp) && decide (g.timestamp ≤ tr.timestamp_2)

/-- One target's group: the matching gaze rows, each tagged with the
target's group id (`filtered_gaze_data["group"] = row["group"]`). -/
def group_rows (gaze : List GazeRecord) (tr : PreparedTarget) : List (GazeRecord × ℕ) :=
  (gaze.filter (in_window tr)).map fun g => (g, tr.group)

/-- `filter_and_group_data`: collect the non-empty groups and concatenate
them.  `pd.concat` on an empty list raises
`ValueError: No objects to concatenate`, modelled as `Except.error`. -/
def filter_and_group_data (gaze : List GazeRecord) (targets : List PreparedTarget) :
    Except String (List (GazeRecord × ℕ)) :=
  let groups := (targets.map (group_rows gaze)).filter fun l => !l.isEmpty
  if groups.isEmpty then Except.error "No objects to concatenate"
  else Except.ok groups.flatten

/-- Column mean, `pandas.Series.mean`. -/
noncomputable def colMean (l : List ℝ) : ℝ := l.sum / l.length

/-- Column standard deviation, `pandas.Series.std` (sample convention,
`ddof = 1`: the sum of squared deviations over `n − 1`). -/
noncomputable def colStd (l : List ℝ) : ℝ :=
  Real.sqrt ((l.map fun x => (x - colMean l) ^ 2).sum / ((l.length : ℝ) - 1))

/-- The per-sample mean gaze point `(mean_x, mean_y)` computed by
`calculate_data`: per axis, the average of the left-eye and right-eye column
means. -/
noncomputable def group_mean_point (samples : List GazeRecord) : ℝ × ℝ :=
  ((colMean (samples.map fun s => s.left_eye.gaze_point.1)
      + colMean (samples.map fun s => s.right_eye.gaze_point.1)) / 2,
   (colMean (samples.map fun s => s.left_eye.gaze_point.2)
      + colMean (samples.map fun s => s.right_eye.gaze_point.2)) / 2)

/-- The emitted statistics row of `calculate_statistics`. -/
structure StatRow where
  group : ℕ
  target_position : ℝ × ℝ
  spread_target : ℝ
  mean_gaze_point : ℝ × ℝ
  spread_mean : ℝ

/-- `calculate_data` followed by `calculate_statistics` on one group:
the distance columns relative to the target and relative to the group's mean
point (`calculate_data`), then the row with the rescaled target position, the
averaged spreads and the rescaled mean gaze point (`calculate_statistics`). -/
noncomputable def calculate_statistics (screen : ℝ × ℝ) (g : ℕ)
    (target_relative : ℝ × ℝ) (samples : List GazeRecord) : StatRow :=
  let mean_point := group_mean_point samples
  { group := g
    target_position := get_actual_from_relative target_relative screen.1 screen.2
    spread_target :=
      (colStd (samples.map fun s => get_distance s.left_eye.gaze_point target_relative)
        + colStd (samples.map fun s => get_distance s.right_eye.gaze_point target_relative)) / 2
    mean_gaze_point := get_actual_from_relative mean_point screen.1 screen.2
    spread_mean :=
      (colStd (samples.map fun s => get_distance s.left_eye.gaze_point mean_point)
        + colStd (samples.map fun s => get_distance s.right_eye.gaze_point mean_point)) / 2 }

/-- `get_statistics`: empty gaze data or empty target data short-circuits to
an empty table; otherwise preprocess, filter-and-group (which raises when no
group is populated), then one `calculate_data` + `calculate_statistics` call
per populated group.  `pandas.groupby("group")` on the concatenated frame,
whose tags arrive in increasing group order, recovers exactly the populated
groups' row lists, and the `join` on `group` attaches each group's
`target_relative`; the embedding maps `calculate_statistics` directly over
the populated targets, which is that same decomposition. -/
noncomputable def get_statistics (screen window : ℝ × ℝ) (gaze : List GazeRecord)
    (targets : List TargetRecord) : Except String (List StatRow) :=
  if gaze.isEmpty || targets.isEmpty then Except.ok []
  else
    let prepared := preprocess_data screen window targets
    match filter_and_group_data gaze prepared with
    | Except.error e => Except.error e
    | Except.ok _ =>
      Except.ok
        (((prepared.filter fun tr => !(gaze.filter (in_window tr)).isEmpty).map
          fun tr => calculate_statistics screen tr.group tr.target_relative
            (gaze.filter (in_window tr))))

/-! Spec-side definitions for the measured-position claim: the per-group
median polar reduction of spec §4.4 steps 4a–4b, written from the spec's
words to be compared with the source's `calculate_statistics`. -/

/-- Median of a list of reals (sort; middle element for odd length, the
average of the two middle elements for even length — numpy's convention). -/
noncomputable def medianR (l : List ℝ) : ℝ :=
  let s := l.insertionSort (· ≤ ·)
  if s.length % 2 = 1 then s.getD (s.length / 2) 0
  else (s.getD (s.length / 2 - 1) 0 + s.getD (s.length / 2) 0) / 2

/-- Polar magnitude of a 2-D offset. -/
noncomputable def polar_magnitude (v : ℝ × ℝ) : ℝ :=
  Real.sqrt (v.1 ^ 2 + v.2 ^ 2)

/-- Polar phase of a 2-D offset (the angle atan2 computes, in radians). -/
noncomputable def polar_phase (v : ℝ × ℝ) : ℝ :=
  Complex.arg { re := v.1, im := v.2 }

/-- Spec §4.4 steps 4a–4b, in the gaze recording's pixel space: per sample,
each eye's offset from the target in polar form, magnitude and phase averaged
across both eyes; then the group's median magnitude and median phase,
reconstructing an absolute measured median position relative to the target. -/
noncomputable def spec_measured_median_position (screen : ℝ × ℝ)
    (target_relative : ℝ × ℝ) (samples : List GazeRecord) : ℝ × ℝ :=
  let target := get_actual_from_relative target_relative screen.1 screen.2
  let offL := fun s : GazeRecord =>
    (s.left_eye.gaze_point.1 * screen.1 - target.1,
     s.left_eye.gaze_point.2 * screen.2 - target.2)
  let offR := fun s : GazeRecord =>
    (s.right_eye.gaze_point.1 * screen.1 - target.1,
     s.right_eye.gaze_point.2 * screen.2 - target.2)
  let m := medianR (samples.map fun s => (polar_magnitude (offL s) + polar_magnitude (offR s)) / 2)
  let ph := medianR (samples.map fun s => (polar_phase (offL s) + polar_phase (offR s)) / 2)
  (target.1 + m * Real.cos ph, target.2 + m * Real.sin ph)

/-! ### Live stream buffers — `pyETA/components/reader.py` -/

/-- `StreamThread.BUFFER_SIZE` ("Keep last 100 gaze points"). -/
def BUFFER_SIZE : ℕ := 100

/-- The three parallel gaze buffers of `StreamThread`. -/
structure StreamBuffers where
  gaze_times : List ℝ
  gaze_x : List ℤ
  gaze_y : List ℤ

/-- One sample's buffer update in `StreamThread.run`: append to all three
buffers, then, when the time buffer exceeds `BUFFER_SIZE`, keep only the last
`BUFFER_SIZE` entries of each (`lst[-BUFFER_SIZE:]`). -/
def push_gaze (st : StreamBuffers) (t : ℝ) (x y : ℤ) : StreamBuffers :=
  let times := st.gaze_times ++ [t]
  let xs := st.gaze_x ++ [x]
  let ys := st.gaze_y ++ [y]
  if times.length > BUFFER_SIZE then
    { gaze_times := times.drop (times.length - BUFFER_SIZE)
      gaze_x := xs.drop (xs.length - BUFFER_SIZE)
      gaze_y := ys.drop (ys.length - BUFFER_SIZE) }
  else
    { gaze_times := times, gaze_x := xs, gaze_y := ys }

/-- The single-buffer form of the same update, for the componentwise
statement. -/
def push_trunc {α : Type} (buf : List α) (v : α) : List α :=
  let b := buf ++ [v]
  if b.length > BUFFER_SIZE then b.drop (b.length - BUFFER_SIZE) else b

/-- `StreamThread.run` over a list of received samples `(time, x, y)`. -/
def run_stream (st : StreamBuffers) (samples : List (ℝ × ℤ × ℤ)) : StreamBuffers :=
  samples.foldl (fun s p => push_gaze s p.1 p.2.1 p.2.2) st

/-- The buffers as `StreamThread.__init__` makes them. -/
def emptyBuffers : StreamBuffers :=
  { gaze_times := [], gaze_x := [], gaze_y := [] }

/-! ### `GazeReader` — `pyETA/components/reader.py` -/

/-- One value of the `fixation_data` dictionary. -/
structure FixEntry where
  count : ℕ
  x : ℤ
  y : ℤ
  timestamp : Option ℚ
deriving DecidableEq

/-- `GazeReader`'s state.  The `fixation_data` dictionary is keyed by the
string rendering of the fixation time, modelled by the time value itself. -/
structure GazeReaderState where
  buffer_times : List ℚ
  buffer_x : List ℤ
  buffer_y : List ℤ
  fixation_data : List (ℚ × FixEntry)
  running : Bool
deriving DecidableEq

/-- `GazeReader.get_data(fixation)`: with `fixation = True`, the
`(x, y, count)` triples of the entries whose timestamp is set, clearing the
dictionary; otherwise the three gaze buffers, which are replaced by fresh
empty lists.  Returns the produced data together with the state after the
call. -/
def get_data (st : GazeReaderState) (fixation : Bool) :
    (List (ℤ × ℤ × ℕ) ⊕ (List ℚ × List ℤ × List ℤ)) × GazeReaderState :=
  if fixation then
    (Sum.inl ((st.fixation_data.filter fun e => e.2.timestamp.isSome).map
        fun e => (e.2.x, e.2.y, e.2.count)),
     { st with fixation_data := [] })
  else
    (Sum.inr (st.buffer_times, st.buffer_x, st.buffer_y),
     { st with buffer_times := [], buffer_x := [], buffer_y := [] })

/-! ### Concrete example data used to instantiate the theorems -/

/-- A gaze record at a given timestamp with both eyes at the display
center-left point `(0, 0)`. -/
noncomputable def gazeAt (q : ℚ) : GazeRecord :=
  { timestamp := q, left_eye := { gaze_point := (0, 0) }, right_eye := { gaze_point := (0, 0) } }

/-- A one-target schedule row at display timestamp 0, window position `(0, 0)`. -/
noncomputable def targetAt0 : TargetRecord := { timestamp := 0, screen_position := (0, 0) }

/-- A gaze record at timestamp 0 whose two eyes sit at the same normalized
point `(x, 1/2)`. -/
noncomputable def cSample (x : ℝ) : GazeRecord :=
  { timestamp := 0
    left_eye := { gaze_point := (x, 1 / 2) }
    right_eye := { gaze_point := (x, 1 / 2) } }

/-- A populated validation group of three samples: two near the target, one
far, all displaced along the positive x axis. -/
noncomputable def cGroup : List GazeRecord :=
  [cSample (1 / 5), cSample (1 / 5), cSample (4 / 5)]

/-- A reader state holding one buffered gaze point. -/
def sampleReaderState : GazeReaderState :=
  { buffer_times := [1], buffer_x := [2], buffer_y := [3], fixation_data := [], running := true }

/-- 101 pushed stream samples — one more than `BUFFER_SIZE`. -/
noncomputable def witnessSamples : List (ℝ × ℤ × ℤ) :=
  (List.range 101).map fun i : ℕ => ((i : ℝ), (i : ℤ), (i : ℤ))

/-! ## Theorems -/

/-! ### Helper lemmas -/

/-- `push_trunc` never grows a buffer beyond `BUFFER_SIZE`. -/
theorem push_trunc_length_le {α : Type} (buf : List α) (v : α)
    (h : buf.length ≤ BUFFER_SIZE) : (push_trunc buf v).length ≤ BUFFER_SIZE := by
  have hl : (buf ++ [v]).length = buf.length + 1 := by simp
  simp only [push_trunc, hl]
  split
  · simp only [List.length_drop, hl]
    omega
  · rw [hl]
    omega

/-- Folding `push_trunc` keeps exactly the most recent `BUFFER_SIZE` entries
in arrival order. -/
theorem foldl_push_trunc {α : Type} :
    ∀ (xs : List α) (buf : List α), buf.length ≤ BUFFER_SIZE →
      List.foldl push_trunc buf xs
        = (buf ++ xs).drop (buf.length + xs.length - BUFFER_SIZE) := by
  intro xs
  induction xs with
  | nil =>
    intro buf h
    have h0 : buf.length - BUFFER_SIZE = 0 := by omega
    simp [h0]
  | cons x xs ih =>
    intro xbuf h
    by_cases hb : xbuf.length + 1 ≤ BUFFER_SIZE
    · have hpt : push_trunc xbuf x = xbuf ++ [x] := by
        simp only [push_trunc]
        rw [if_neg]
        simp
        omega
      rw [List.foldl_cons, hpt, ih (xbuf ++ [x]) (by simpa using hb)]
      have h1 : (xbuf ++ [x]).length + xs.length - BUFFER_SIZE
          = xbuf.length + (x :: xs).length - BUFFER_SIZE := by
        simp only [List.length_append, List.length_cons, List.length_nil]
        omega
      rw [h1, List.append_assoc]
      simp
    · have hbe : xbuf.length = BUFFER_SIZE := by omega
      have hpt : push_trunc xbuf x = (xbuf ++ [x]).drop 1 := by
        simp only [push_trunc]
        rw [if_pos (by simp; omega)]
        congr 1
        simp
        omega
      have hlen2 : ((xbuf ++ [x]).drop 1).length = BUFFER_SIZE := by
        simp [hbe]
      rw [List.foldl_cons, hpt, ih _ (le_of_eq hlen2), hlen2]
      have hdr : BUFFER_SIZE + xs.length - BUFFER_SIZE = xs.length := by omega
      have hdr2 : xbuf.length + (x :: xs).length - BUFFER_SIZE = xs.length + 1 := by
        simp only [List.length_cons]
        omega
      rw [hdr, hdr2, ← List.drop_append_of_le_length (show 1 ≤ (xbuf ++ [x]).length by simp),
        List.drop_drop, List.append_assoc]
      simp [Nat.add_comm]

/-- `push_gaze` acts componentwise as `push_trunc` when the three buffers
have equal lengths. -/
theorem push_gaze_eq_push_trunc (st : StreamBuffers) (t : ℝ) (x y : ℤ)
    (hx : st.gaze_x.length = st.gaze_times.length)
    (hy : st.gaze_y.length = st.gaze_times.length) :
    push_gaze st t x y =
      { gaze_times := push_trunc st.gaze_times t
        gaze_x := push_trunc st.gaze_x x
        gaze_y := push_trunc st.gaze_y y } := by
  unfold push_gaze push_trunc
  by_cases hc : (st.gaze_times ++ [t]).length > BUFFER_SIZE
  · rw [if_pos hc, if_pos hc, if_pos (by simp_all), if_pos (by simp_all)]
  · rw [if_neg hc, if_neg hc, if_neg (by simp_all), if_neg (by simp_all)]

/-- `run_stream` decomposes into three independent `push_trunc` folds when
the buffers start with equal lengths. -/
theorem run_stream_eq_foldl :
    ∀ (samples : List (ℝ × ℤ × ℤ)) (st : StreamBuffers),
      st.gaze_x.length = st.gaze_times.length →
      st.gaze_y.length = st.gaze_times.length →
      run_stream st samples =
        { gaze_times := List.foldl push_trunc st.gaze_times (samples.map fun p => p.1)
          gaze_x := List.foldl push_trunc st.gaze_x (samples.map fun p => p.2.1)
          gaze_y := List.foldl push_trunc st.gaze_y (samples.map fun p => p.2.2) } := by
  intro samples
  induction samples with
  | nil => intro st _ _; simp [run_stream]
  | cons p rest ih =>
    intro st hx hy
    have hstep := push_gaze_eq_push_trunc st p.1 p.2.1 p.2.2 hx hy
    have hlen : ∀ {α β : Type} (b : List α) (v : α) (c : List β) (w : β),
        b.length = c.length → (push_trunc b v).length = (push_trunc c w).length := by
      intro α β b v c w hbc
      simp only [push_trunc]
      by_cases h1 : BUFFER_SIZE < (b ++ [v]).length
      · rw [if_pos h1, if_pos (by simpa [hbc] using h1)]
        simp [hbc]
      · rw [if_neg h1, if_neg (by simpa [hbc] using h1)]
        simp [hbc]
    have := ih (push_gaze st p.1 p.2.1 p.2.2)
      (by rw [hstep]; exact hlen st.gaze_x p.2.1 st.gaze_times p.1 hx)
      (by rw [hstep]; exact hlen st.gaze_y p.2.2 st.gaze_times p.1 hy)
    simp only [run_stream] at this ⊢
    rw [List.foldl_cons, this, hstep]
    simp

/-! ### C7 — live buffer is a most-recent-`BUFFER_SIZE` ring -/

/-- C7: after pushing more than `BUFFER_SIZE` samples into `StreamThread`'s
buffers (which start empty), each of the three gaze buffers holds exactly the
`BUFFER_SIZE` most recently pushed entries in arrival order, its length is
exactly `BUFFER_SIZE`, and at no prefix of the stream does the buffer ever
hold more than `BUFFER_SIZE` entries. -/
theorem C7_live_buffer_ring (samples : List (ℝ × ℤ × ℤ))
    (h : samples.length > BUFFER_SIZE) :
    (run_stream emptyBuffers samples).gaze_times
        = (samples.map fun p => p.1).drop (samples.length - BUFFER_SIZE)
    ∧ (run_stream emptyBuffers samples).gaze_x
        = (samples.map fun p => p.2.1).drop (samples.length - BUFFER_SIZE)
    ∧ (run_stream emptyBuffers samples).gaze_y
        = (samples.map fun p => p.2.2).drop (samples.length - BUFFER_SIZE)
    ∧ (run_stream emptyBuffers samples).gaze_times.length = BUFFER_SIZE
    ∧ ∀ n, (run_stream emptyBuffers (samples.take n)).gaze_times.length ≤ BUFFER_SIZE := by
  have hrun : ∀ l : List (ℝ × ℤ × ℤ),
      run_stream emptyBuffers l =
        { gaze_times := List.foldl push_trunc [] (l.map fun p => p.1)
          gaze_x := List.foldl push_trunc [] (l.map fun p => p.2.1)
          gaze_y := List.foldl push_trunc [] (l.map fun p => p.2.2) } := fun l =>
    run_stream_eq_foldl l emptyBuffers rfl rfl
  have hfold : ∀ {α : Type} (l : List α),
      List.foldl push_trunc ([] : List α) l = l.drop (l.length - BUFFER_SIZE) := by
    intro α l
    simpa using foldl_push_trunc l [] (by simp)
  refine ⟨?_, ?_, ?_, ?_, ?_⟩
  · rw [hrun]
    simp only [hfold, List.length_map]
  · rw [hrun]
    simp only [hfold, List.length_map]
  · rw [hrun]
    simp only [hfold, List.length_map]
  · rw [hrun]
    simp only [hfold, List.length_drop, List.length_map]
    omega
  · intro n
    rw [hrun]
    simp only [hfold, List.length_drop, List.length_map]
    omega

/-- C7 witness: with 101 concrete pushed samples the time buffer holds
exactly `BUFFER_SIZE` entries. -/
theorem C7_live_buffer_ring_witness :
    (run_stream emptyBuffers witnessSamples).gaze_times.length = BUFFER_SIZE :=
  (C7_live_buffer_ring witnessSamples
    (by simp [witnessSamples, BUFFER_SIZE])).2.2.2.1

/-! ### C8 — empty validation inputs give an empty table -/

/-- C8: when the gaze dataset or the target dataset is empty,
`get_statistics` returns the empty result table and no error. -/
theorem C8_empty_input_empty_table (screen window : ℝ × ℝ) (gaze : List GazeRecord)
    (targets : List TargetRecord) (h : gaze = [] ∨ targets = []) :
    get_statistics screen window gaze targets = Except.ok [] := by
  rcases h with h | h <;> subst h <;> simp [get_statistics]

/-- C8 witness: an empty gaze log against a one-target schedule yields the
empty table. -/
theorem C8_empty_input_empty_table_witness :
    get_statistics (1000, 1000) (1000, 1000) [] [targetAt0] = Except.ok [] :=
  C8_empty_input_empty_table (1000, 1000) (1000, 1000) [] [targetAt0] (Or.inl rfl)

/-! ### C9 — `GazeReader.get_data` drains rather than snapshots -/

/-- C9 (amended): `get_data` is a destructive drain, not a pure snapshot: it
returns the currently buffered series and resets the corresponding internal
buffers to fresh empty containers (so the returned data shares no state with
the post-call aggregator), and an immediately repeated call returns empty
series, not the same ones. -/
theorem C9_get_data_drains (st : GazeReaderState) :
    (get_data st false).1 = Sum.inr (st.buffer_times, st.buffer_x, st.buffer_y)
    ∧ (get_data st false).2
        = { st with buffer_times := [], buffer_x := [], buffer_y := [] }
    ∧ (get_data (get_data st false).2 false).1 = Sum.inr ([], [], [])
    ∧ (get_data st true).2 = { st with fixation_data := [] }
    ∧ (get_data (get_data st true).2 true).1 = Sum.inl [] := by
  refine ⟨rfl, rfl, rfl, rfl, rfl⟩

/-- C9 counterexample: from a state holding one buffered gaze point, a second
immediate `get_data` call does not return the same series as the first — the
first call cleared the buffers. -/
theorem C9_second_snapshot_differs :
    (get_data (get_data sampleReaderState false).2 false).1
      ≠ (get_data sampleReaderState false).1 := by
  decide

/-! ### C10 — zero populated groups raises instead of returning empty -/

/-- C10: with non-empty gaze and target datasets but no gaze sample inside
any target's dwell window (zero populated groups), `get_statistics` fails
with the `pd.concat` error instead of returning an empty table. -/
theorem C10_zero_groups_error (screen window : ℝ × ℝ) (gaze : List GazeRecord)
    (targets : List TargetRecord) (hg : gaze ≠ []) (ht : targets ≠ [])
    (hnone : ∀ tr ∈ preprocess_data screen window targets,
      gaze.filter (in_window tr) = []) :
    get_statistics screen window gaze targets
      = Except.error "No objects to concatenate" := by
  have hge : gaze.isEmpty = false := by
    cases gaze with
    | nil => exact absurd rfl hg
    | cons a l => rfl
  have hte : targets.isEmpty = false := by
    cases targets with
    | nil => exact absurd rfl ht
    | cons a l => rfl
  have hfg : filter_and_group_data gaze (preprocess_data screen window targets)
      = Except.error "No objects to concatenate" := by
    unfold filter_and_group_data
    have hgs : ((preprocess_data screen window targets).map (group_rows gaze)).filter
        (fun l => !l.isEmpty) = [] := by
      apply List.filter_eq_nil_iff.mpr
      intro l hl
      rcases List.mem_map.mp hl with ⟨tr, htr, rfl⟩
      simp [group_rows, hnone tr htr]
    rw [hgs]
    rfl
  simp [get_statistics, hge, hte, hfg]

/-! ### Projection lemmas for `update_fixation_data` -/

/-- The classifier's velocity: filter disagreement over elapsed time. -/
theorem update_velocity_eq (thr : ℝ) (st : EyeState) (t x y : ℝ) :
    (update_fixation_data thr st t x y).fix.velocity
      = Real.sqrt (((st.filter_x.call t x).1 - x) ^ 2 + ((st.filter_y.call t y).1 - y) ^ 2)
        / (t - min st.filter_x.previous_time st.filter_y.previous_time) := rfl

/-- The classifier's fixation flag, in terms of its own velocity. -/
theorem update_is_fixated_eq (thr : ℝ) (st : EyeState) (t x y : ℝ) :
    (update_fixation_data thr st t x y).fix.is_fixated
      = if (update_fixation_data thr st t x y).fix.velocity ≤ thr then true else false := rfl

/-- The stored timestamp: kept while fixated, set to `t` on a saccade. -/
theorem update_timestamp_eq (thr : ℝ) (st : EyeState) (t x y : ℝ) :
    (update_fixation_data thr st t x y).fix.timestamp
      = if (update_fixation_data thr st t x y).fix.is_fixated then st.fix.timestamp else t := rfl

/-- The cumulative duration: accumulated while fixated, reset on a saccade. -/
theorem update_duration_eq (thr : ℝ) (st : EyeState) (t x y : ℝ) :
    (update_fixation_data thr st t x y).fix.duration
      = if (update_fixation_data thr st t x y).fix.is_fixated
          then st.fix.duration + (update_fixation_data thr st t x y).fix.elapsed_time
          else 0 := rfl

/-- The elapsed time between the current sample and the filters' last one. -/
theorem update_elapsed_eq (thr : ℝ) (st : EyeState) (t x y : ℝ) :
    (update_fixation_data thr st t x y).fix.elapsed_time
      = t - min st.filter_x.previous_time st.filter_y.previous_time := rfl

/-- Both per-axis filters record the sample's timestamp. -/
theorem update_prev_times (thr : ℝ) (st : EyeState) (t x y : ℝ) :
    (update_fixation_data thr st t x y).filter_x.previous_time = t
    ∧ (update_fixation_data thr st t x y).filter_y.previous_time = t := ⟨rfl, rfl⟩

/-- The smoothing factor lies in [0, 1) for nonnegative elapsed time and
cutoff. -/
theorem smoothing_factor_mem (dt fc : ℝ) (hdt : 0 ≤ dt) (hfc : 0 ≤ fc) :
    0 ≤ smoothing_factor dt fc ∧ smoothing_factor dt fc < 1 := by
  have hr : 0 ≤ 2 * Real.pi * fc * dt := by positivity
  simp only [smoothing_factor]
  constructor
  · exact div_nonneg hr (by linarith)
  · rw [div_lt_one (by linarith)]
    linarith

/-- The concrete filter state maps the sample `(t, v) = (1, 0)` to 0: every
term of the exponential smoothing is multiplied by a zero. -/
theorem sampleFilter0_call_zero : (sampleFilter0.call 1 0).1 = 0 := by
  simp [OneEuroFilter.call, sampleFilter0, exp_smoothing, smoothing_factor]

/-- The returned filtered value of one filter invocation, spelled out. -/
theorem call_fst_eq (f : OneEuroFilter) (t v : ℝ) :
    (f.call t v).1
      = exp_smoothing
          (smoothing_factor (t - f.previous_time)
            (f.min_cutoff + f.beta *
              |exp_smoothing (smoothing_factor (t - f.previous_time) f.derivative_cutoff)
                ((v - f.previous_value) / (t - f.previous_time)) f.previous_derivative|))
          v f.previous_value := rfl

/-- The state after one filter invocation, spelled out. -/
theorem call_snd_eq (f : OneEuroFilter) (t v : ℝ) :
    (f.call t v).2
      = { f with
          previous_value := (f.call t v).1
          previous_derivative :=
            exp_smoothing (smoothing_factor (t - f.previous_time) f.derivative_cutoff)
              ((v - f.previous_value) / (t - f.previous_time)) f.previous_derivative
          previous_time := t } := rfl

/-- The concrete filter state maps the sample `(t, v) = (1, 1)` strictly
below 1: the output is the smoothing factor itself, which is below 1. -/
theorem sampleFilter0_call_one_lt_one : (sampleFilter0.call 1 1).1 < 1 := by
  rw [call_fst_eq]
  show exp_smoothing (smoothing_factor (1 - (0 : ℝ))
      ((4 / 1000 : ℝ) + (7 / 10 : ℝ) *
        |exp_smoothing (smoothing_factor (1 - (0 : ℝ)) 1)
          ((1 - (0 : ℝ)) / (1 - (0 : ℝ))) 0|)) 1 0 < 1
  simp only [exp_smoothing, mul_one, mul_zero, add_zero]
  exact (smoothing_factor_mem _ _ (by norm_num) (by positivity)).2

/-- At the concrete saccade sample `(t, x, y) = (1, 0, 1)` the classifier's
velocity is strictly positive: the y filter disagrees with the raw value. -/
theorem ex_saccade_velocity_pos :
    0 < (update_fixation_data 0 sampleEyeState 1 0 1).fix.velocity := by
  rw [update_velocity_eq]
  have hx : (sampleEyeState.filter_x.call 1 0).1 = 0 := sampleFilter0_call_zero
  have hy : (sampleEyeState.filter_y.call 1 1).1 < 1 := sampleFilter0_call_one_lt_one
  apply div_pos
  · rw [Real.sqrt_pos, hx]
    nlinarith [mul_pos (sub_pos.mpr hy) (sub_pos.mpr hy)]
  · norm_num [sampleEyeState, sampleFilter0]

/-- With velocity threshold 0, the concrete sample `(1, 0, 1)` is classified
as a saccade. -/
theorem ex_saccade_not_fixated :
    (update_fixation_data 0 sampleEyeState 1 0 1).fix.is_fixated = false := by
  rw [update_is_fixated_eq, if_neg (not_le.mpr ex_saccade_velocity_pos)]

/-- At the concrete sample `(1, 0, 0)` (raw input equal to the filters'
state) the classifier's velocity is exactly 0. -/
theorem ex_fix_velocity_zero :
    (update_fixation_data 0 sampleEyeState 1 0 0).fix.velocity = 0 := by
  rw [update_velocity_eq]
  have hx : (sampleEyeState.filter_x.call 1 0).1 = 0 := sampleFilter0_call_zero
  have hy : (sampleEyeState.filter_y.call 1 0).1 = 0 := sampleFilter0_call_zero
  rw [hx, hy]
  norm_num [sampleEyeState, sampleFilter0, Real.sqrt_zero]

/-! ### C2 — temporal grouping uses a closed dwell interval -/

/-- Dropping the empty groups before concatenating does not change which
tagged rows appear. -/
theorem mem_flatten_filter_nonempty {α : Type} (L : List (List α)) (a : α) :
    a ∈ (L.filter fun l => !l.isEmpty).flatten ↔ a ∈ L.flatten := by
  simp only [List.mem_flatten, List.mem_filter]
  constructor
  · rintro ⟨l, ⟨hl, _⟩, ha⟩
    exact ⟨l, hl, ha⟩
  · rintro ⟨l, hl, ha⟩
    refine ⟨l, ⟨hl, ?_⟩, ha⟩
    cases l with
    | nil => cases ha
    | cons b m => rfl

/-- C2 (amended): a gaze sample is attributed to a target's group exactly
when its timestamp lies in the closed interval
[target.timestamp, target.timestamp + 2]; both endpoints are included — the
source filters with two inclusive comparisons, so a sample at exactly
target.timestamp + 2 belongs to the group as well. -/
theorem C2_closed_dwell_window (screen window : ℝ × ℝ) (gaze : List GazeRecord)
    (targets : List TargetRecord) (rows : List (GazeRecord × ℕ))
    (h : filter_and_group_data gaze (preprocess_data screen window targets)
      = Except.ok rows) (s : GazeRecord) (g : ℕ) :
    (s, g) ∈ rows ↔
      ∃ tr, targets[g]? = some tr ∧ s ∈ gaze ∧
        tr.timestamp ≤ s.timestamp ∧ s.timestamp ≤ tr.timestamp + 2 := by
  unfold filter_and_group_data at h
  by_cases hemp : (((preprocess_data screen window targets).map (group_rows gaze)).filter
      (fun l => !l.isEmpty)).isEmpty
  · rw [if_pos hemp] at h
    cases h
  · rw [if_neg hemp] at h
    have hrows : rows = (((preprocess_data screen window targets).map
        (group_rows gaze)).filter (fun l => !l.isEmpty)).flatten := by
      cases h
      rfl
    rw [hrows, mem_flatten_filter_nonempty]
    simp only [List.mem_flatten, List.mem_map]
    constructor
    · rintro ⟨l, ⟨tr, htr, rfl⟩, hmem⟩
      simp only [preprocess_data, List.mem_map] at htr
      obtain ⟨p, hp, rfl⟩ := htr
      simp only [group_rows, List.mem_map, List.mem_filter] at hmem
      obtain ⟨s', ⟨hsg, hw⟩, heq⟩ := hmem
      obtain ⟨rfl, hg⟩ : s' = s ∧ p.1 = g := by
        constructor
        · exact congrArg Prod.fst heq
        · exact congrArg Prod.snd heq
      simp only [in_window, Bool.and_eq_true, decide_eq_true_eq] at hw
      refine ⟨p.2, ?_, hsg, hw.1, hw.2⟩
      rw [← hg]
      exact List.mk_mem_enum_iff_getElem?.mp (by rw [Prod.mk.eta]; exact hp)
    · rintro ⟨tr, hget, hs, h1, h2⟩
      have hp : (g, tr) ∈ targets.enum := List.mk_mem_enum_iff_getElem?.mpr hget
      refine ⟨_, ⟨{ group := g
                    timestamp_0 := tr.timestamp
                    timestamp_2 := tr.timestamp + 2
                    screen_position_recalibrated :=
                      convert_window_to_screen_coordinates screen window tr.screen_position
                    target_relative := get_relative_from_actual
                      (convert_window_to_screen_coordinates screen window tr.screen_position)
                      screen.1 screen.2 }, ?_, rfl⟩, ?_⟩
      · simp only [preprocess_data, List.mem_map]
        exact ⟨(g, tr), hp, rfl⟩
      · simp only [group_rows, List.mem_map, List.mem_filter]
        refine ⟨s, ⟨hs, ?_⟩, rfl⟩
        simp only [in_window, Bool.and_eq_true, decide_eq_true_eq]
        exact ⟨h1, h2⟩

/-- C2 witness: one gaze sample one second after a lone target's onset is
attributed to group 0, and the characterization instantiates to it. -/
theorem C2_closed_dwell_window_witness :
    (gazeAt 1, 0) ∈ [(gazeAt 1, (0 : ℕ))] ↔
      ∃ tr, [targetAt0][0]? = some tr ∧ gazeAt 1 ∈ [gazeAt 1] ∧
        tr.timestamp ≤ (gazeAt 1).timestamp ∧ (gazeAt 1).timestamp ≤ tr.timestamp + 2 :=
  C2_closed_dwell_window (1000, 1000) (1000, 1000) [gazeAt 1] [targetAt0]
    [(gazeAt 1, 0)]
    (by simp [filter_and_group_data, preprocess_data, group_rows, in_window, gazeAt,
      targetAt0, List.filter, List.enum, List.enumFrom])
    (gazeAt 1) 0

/-- C2 counterexample: a gaze sample whose timestamp is exactly
target.timestamp + 2 seconds is included in the target's group — the claim
says it must be excluded. -/
theorem C2_boundary_sample_included :
    filter_and_group_data [gazeAt 2] (preprocess_data (1000, 1000) (1000, 1000) [targetAt0])
      = Except.ok [(gazeAt 2, 0)] := by
  simp [filter_and_group_data, preprocess_data, group_rows, in_window, gazeAt,
    targetAt0, List.filter, List.enum, List.enumFrom]

/-- C10 witness: one gaze sample at t = 100 against one target shown at
t = 0 populates no group, and the analysis errors out. -/
theorem C10_zero_groups_error_witness :
    get_statistics (1000, 1000) (1000, 1000) [gazeAt 100] [targetAt0]
      = Except.error "No objects to concatenate" := by
  refine C10_zero_groups_error (1000, 1000) (1000, 1000) [gazeAt 100] [targetAt0]
    (by simp) (by simp) ?_
  intro tr htr
  simp only [preprocess_data, targetAt0, List.enum, List.enumFrom, List.map,
    List.mem_singleton] at htr
  subst htr
  simp [in_window, gazeAt]
  norm_num

/-! ### C6 — one-euro filter step contract -/

/-- C6: one invocation at `(t, value)` with `t` past the stored time returns
`exp_smooth(alpha, value, prev_value)` where `alpha = r/(r+1)`,
`r = 2π·adaptive_cutoff·Δt`, the adaptive cutoff is
`min_cutoff + beta·|filtered_derivative|` with the filtered derivative the
smoothed difference quotient; afterwards the state is exactly
`(filtered_value, filtered_derivative, t)`. -/
theorem C6_one_euro_step (f : OneEuroFilter) (t v : ℝ) (ht : f.previous_time < t) :
    (∀ dt fc : ℝ, smoothing_factor dt fc
        = 2 * Real.pi * fc * dt / (2 * Real.pi * fc * dt + 1))
    ∧ (f.call t v).1
        = exp_smoothing
            (smoothing_factor (t - f.previous_time)
              (f.min_cutoff + f.beta *
                |exp_smoothing (smoothing_factor (t - f.previous_time) f.derivative_cutoff)
                  ((v - f.previous_value) / (t - f.previous_time)) f.previous_derivative|))
            v f.previous_value
    ∧ (f.call t v).2
        = { f with
            previous_value := (f.call t v).1
            previous_derivative :=
              exp_smoothing (smoothing_factor (t - f.previous_time) f.derivative_cutoff)
                ((v - f.previous_value) / (t - f.previous_time)) f.previous_derivative
            previous_time := t } :=
  ⟨fun dt fc => rfl, call_fst_eq f t v, call_snd_eq f t v⟩

/-- C6 witness: the concrete filter state, invoked at `(1, 0)`, stores the
new time 1. -/
theorem C6_one_euro_step_witness : (sampleFilter0.call 1 0).2.previous_time = 1 := by
  have h := (C6_one_euro_step sampleFilter0 1 0 (by norm_num [sampleFilter0])).2.2
  rw [h]

/-! ### C4 — velocity definition and threshold comparison -/

/-- C4: for a sample processed after the stored filter time, the classifier's
velocity is the Euclidean distance between the filtered point and the raw
point divided by the elapsed time, and the fixation flag holds exactly when
that velocity is at most the configured threshold. -/
theorem C4_velocity_definition (thr : ℝ) (st : EyeState) (t x y : ℝ)
    (hpt : st.filter_x.previous_time = st.filter_y.previous_time)
    (ht : st.filter_x.previous_time < t) :
    (update_fixation_data thr st t x y).fix.velocity
        = Real.sqrt (((update_fixation_data thr st t x y).fix.filtered_x - x) ^ 2
            + ((update_fixation_data thr st t x y).fix.filtered_y - y) ^ 2)
          / (t - st.filter_x.previous_time)
    ∧ ((update_fixation_data thr st t x y).fix.is_fixated = true
        ↔ (update_fixation_data thr st t x y).fix.velocity ≤ thr) := by
  constructor
  · have hfx : (update_fixation_data thr st t x y).fix.filtered_x
        = (st.filter_x.call t x).1 := rfl
    have hfy : (update_fixation_data thr st t x y).fix.filtered_y
        = (st.filter_y.call t y).1 := rfl
    rw [update_velocity_eq, hfx, hfy, hpt, min_self]
  · rw [update_is_fixated_eq]
    by_cases h : (update_fixation_data thr st t x y).fix.velocity ≤ thr
    · simp [h]
    · simp [h]

/-- C4 witness: at the concrete state and sample `(1, 0, 0)` with threshold
1, the fixation flag agrees with the velocity comparison. -/
theorem C4_velocity_definition_witness :
    (update_fixation_data 1 sampleEyeState 1 0 0).fix.is_fixated = true
      ↔ (update_fixation_data 1 sampleEyeState 1 0 0).fix.velocity ≤ 1 :=
  (C4_velocity_definition 1 sampleEyeState 1 0 0 rfl
    (by norm_num [sampleEyeState, sampleFilter0])).2

/-! ### C3 — the stored fixation timestamp -/

/-- C3 (amended): the stored fixation timestamp is held unchanged on every
sample classified as fixation, and is set to the current sample's timestamp
on every sample classified as saccade — so at a new fixation's first sample
it is not updated, but retains the timestamp of the last preceding saccade
sample. -/
theorem C3_onset_timestamp_rule (thr : ℝ) (st : EyeState) (t x y : ℝ) :
    ((update_fixation_data thr st t x y).fix.is_fixated = true →
      (update_fixation_data thr st t x y).fix.timestamp = st.fix.timestamp)
    ∧ ((update_fixation_data thr st t x y).fix.is_fixated = false →
      (update_fixation_data thr st t x y).fix.timestamp = t) := by
  constructor
  · intro h
    rw [update_timestamp_eq, h]
    simp
  · intro h
    rw [update_timestamp_eq, h]
    simp

/-- C3 counterexample: a concrete sample classified as a saccade overwrites
the stored fixation timestamp (99 becomes the saccade sample's time 1),
contradicting "not modified on samples classified as saccade" and "updated
only on the first sample of a new fixation". -/
theorem C3_saccade_overwrites_timestamp :
    (update_fixation_data 0 sampleEyeState 1 0 1).fix.is_fixated = false
    ∧ (update_fixation_data 0 sampleEyeState 1 0 1).fix.timestamp = 1
    ∧ sampleEyeState.fix.timestamp = 99 := by
  refine ⟨ex_saccade_not_fixated, ?_, rfl⟩
  rw [update_timestamp_eq, ex_saccade_not_fixated]
  simp

/-- C3 witness: the amended rule applied to the concrete saccade sample. -/
theorem C3_onset_timestamp_rule_witness :
    (update_fixation_data 0 sampleEyeState 1 0 1).fix.timestamp = 1 :=
  (C3_onset_timestamp_rule 0 sampleEyeState 1 0 1).2 ex_saccade_not_fixated

/-! ### C5 — fixation runs accumulate, one saccade resets -/

/-- One fixated step: with equal stored filter times strictly before `t` and
the computed velocity within threshold, the sample is classified as fixation
and the cumulative duration strictly grows. -/
theorem step_fixated (thr : ℝ) (st : EyeState) (t x y : ℝ)
    (hpt : st.filter_x.previous_time = st.filter_y.previous_time)
    (ht : st.filter_x.previous_time < t)
    (hv : (update_fixation_data thr st t x y).fix.velocity ≤ thr) :
    (update_fixation_data thr st t x y).fix.is_fixated = true
    ∧ st.fix.duration < (update_fixation_data thr st t x y).fix.duration := by
  have hfix : (update_fixation_data thr st t x y).fix.is_fixated = true := by
    rw [update_is_fixated_eq, if_pos hv]
  refine ⟨hfix, ?_⟩
  rw [update_duration_eq, hfix, if_pos rfl, update_elapsed_eq, hpt, min_self]
  rw [hpt] at ht
  linarith

/-- The invariant induction behind C5: along a run whose timestamps strictly
increase and whose computed velocities all stay within threshold, every
produced state is fixated and the duration chain strictly increases. -/
theorem fixation_run_aux (thr : ℝ) :
    ∀ (samples : List (ℝ × ℝ × ℝ)) (st : EyeState),
      st.filter_x.previous_time = st.filter_y.previous_time →
      List.Chain' (· < ·) (st.filter_x.previous_time :: samples.map fun p => p.1) →
      (∀ s' ∈ (fixation_run thr st samples).tail, s'.fix.velocity ≤ thr) →
      (∀ s' ∈ (fixation_run thr st samples).tail, s'.fix.is_fixated = true)
      ∧ List.Chain' (fun a b => a.fix.duration < b.fix.duration)
          (fixation_run thr st samples) := by
  intro samples
  induction samples with
  | nil =>
    intro st hpt hmono hvel
    constructor
    · intro s' hs'
      simp [fixation_run] at hs'
    · simp [fixation_run]
  | cons p rest ih =>
    intro st hpt hmono hvel
    have hrun : fixation_run thr st (p :: rest)
        = st :: fixation_run thr (update_fixation_data thr st p.1 p.2.1 p.2.2) rest := by
      simp [fixation_run]
    set st' := update_fixation_data thr st p.1 p.2.1 p.2.2 with hst'
    have hhead : fixation_run thr st' rest = st' :: (fixation_run thr st' rest).tail := by
      cases rest <;> simp [fixation_run]
    have htail : (fixation_run thr st (p :: rest)).tail = fixation_run thr st' rest := by
      rw [hrun]
      rfl
    simp only [List.map_cons] at hmono
    have hmono1 : st.filter_x.previous_time < p.1 := (List.chain'_cons.mp hmono).1
    have hmono2 : List.Chain' (· < ·) (p.1 :: rest.map fun q => q.1) :=
      (List.chain'_cons.mp hmono).2
    have hv1 : st'.fix.velocity ≤ thr := by
      apply hvel
      rw [htail, hhead]
      exact List.mem_cons_self _ _
    have hstep := step_fixated thr st p.1 p.2.1 p.2.2 hpt hmono1 hv1
    have hpt' : st'.filter_x.previous_time = st'.filter_y.previous_time := by
      rw [hst']
      rfl
    have hprevx : st'.filter_x.previous_time = p.1 := by
      rw [hst']
      rfl
    have hvel' : ∀ s' ∈ (fixation_run thr st' rest).tail, s'.fix.velocity ≤ thr := by
      intro s' hs'
      apply hvel
      rw [htail]
      exact List.mem_of_mem_tail hs'
    have hih := ih st' hpt' (by rw [hprevx]; exact hmono2) hvel'
    constructor
    · intro s' hs'
      rw [htail, hhead] at hs'
      rcases List.mem_cons.mp hs' with rfl | hmem
      · exact hstep.1
      · exact hih.1 s' hmem
    · rw [hrun, hhead]
      exact List.chain'_cons.mpr ⟨hstep.2, by rw [← hhead]; exact hih.2⟩

/-- C5: along a run of consecutive samples with strictly increasing
timestamps, all of whose computed velocities stay within the threshold,
every sample is classified as fixation and the cumulative duration strictly
increases from each state to the next; and any single sample whose computed
velocity exceeds the threshold resets the duration to 0. -/
theorem C5_fixation_run_durations (thr : ℝ) (st : EyeState)
    (samples : List (ℝ × ℝ × ℝ))
    (hpt : st.filter_x.previous_time = st.filter_y.previous_time)
    (hmono : List.Chain' (· < ·) (st.filter_x.previous_time :: samples.map fun p => p.1))
    (hvel : ∀ s' ∈ (fixation_run thr st samples).tail, s'.fix.velocity ≤ thr) :
    (∀ s' ∈ (fixation_run thr st samples).tail, s'.fix.is_fixated = true)
    ∧ List.Chain' (fun a b => a.fix.duration < b.fix.duration)
        (fixation_run thr st samples)
    ∧ ∀ (s : EyeState) (t x y : ℝ),
        thr < (update_fixation_data thr s t x y).fix.velocity →
        (update_fixation_data thr s t x y).fix.duration = 0 := by
  refine ⟨(fixation_run_aux thr samples st hpt hmono hvel).1,
    (fixation_run_aux thr samples st hpt hmono hvel).2, ?_⟩
  intro s t x y hv
  have hfix : (update_fixation_data thr s t x y).fix.is_fixated = false := by
    rw [update_is_fixated_eq, if_neg (not_le.mpr hv)]
  rw [update_duration_eq, hfix]
  simp

/-- C5 witness: a one-sample fixation run from the concrete state has a
strictly increasing duration chain. -/
theorem C5_fixation_run_durations_witness :
    List.Chain' (fun a b => a.fix.duration < b.fix.duration)
      (fixation_run 0 sampleEyeState [(1, 0, 0)]) :=
  (C5_fixation_run_durations 0 sampleEyeState [(1, 0, 0)] rfl
    (by norm_num [sampleEyeState, sampleFilter0])
    (by
      intro s' hs'
      simp only [fixation_run, List.scanl, List.tail_cons, List.mem_singleton] at hs'
      rw [hs']
      exact le_of_eq ex_fix_velocity_zero)).2.1

/-! ### C1 — the emitted measured position is a coordinate mean, not a
median polar reconstruction -/

/-- The polar magnitude of an offset along the positive x axis. -/
theorem pm_along_x (a : ℝ) (ha : 0 ≤ a) : polar_magnitude (a, 0) = a := by
  simp only [polar_magnitude]
  norm_num
  exact Real.sqrt_sq ha

/-- The polar phase of an offset along the positive x axis. -/
theorem pp_along_x (a : ℝ) (ha : 0 ≤ a) : polar_phase (a, 0) = 0 := by
  simp only [polar_phase]
  have h : ({ re := ((a, (0 : ℝ))).1, im := ((a, (0 : ℝ))).2 } : ℂ) = ((a : ℝ) : ℂ) := by
    apply Complex.ext <;> simp
  rw [h]
  exact Complex.arg_ofReal_of_nonneg ha

/-- The median of a sorted three-element list is its middle element. -/
theorem medianR_sorted_3 (a b c : ℝ) (hab : a ≤ b) (hbc : b ≤ c) :
    medianR [a, b, c] = b := by
  have hsort : ([a, b, c] : List ℝ).insertionSort (· ≤ ·) = [a, b, c] := by
    simp [List.insertionSort, List.orderedInsert, hab, hbc]
  simp only [medianR, hsort]
  norm_num [List.getD_cons_succ, List.getD_cons_zero]

/-- C1 (amended): for every populated validation group, the emitted measured
position is the rescaled arithmetic mean of the per-sample eye coordinates —
per axis, the average of the left-eye and right-eye column means — not a
reconstruction from the group's median polar offset. -/
theorem C1_measured_position_is_mean (screen : ℝ × ℝ) (g : ℕ)
    (target_relative : ℝ × ℝ) (samples : List GazeRecord) (h : samples ≠ []) :
    (calculate_statistics screen g target_relative samples).mean_gaze_point
      = ((((samples.map fun s => s.left_eye.gaze_point.1).sum / samples.length
            + (samples.map fun s => s.right_eye.gaze_point.1).sum / samples.length) / 2)
            * screen.1,
         (((samples.map fun s => s.left_eye.gaze_point.2).sum / samples.length
            + (samples.map fun s => s.right_eye.gaze_point.2).sum / samples.length) / 2)
            * screen.2) := by
  simp [calculate_statistics, group_mean_point, colMean, get_actual_from_relative]

/-- C1 witness: the mean formula instantiated at the concrete populated
group. -/
theorem C1_measured_position_is_mean_witness :
    (calculate_statistics (1000, 1000) 0 (1 / 10, 1 / 2) cGroup).mean_gaze_point
      = ((((cGroup.map fun s => s.left_eye.gaze_point.1).sum / cGroup.length
            + (cGroup.map fun s => s.right_eye.gaze_point.1).sum / cGroup.length) / 2)
            * 1000,
         (((cGroup.map fun s => s.left_eye.gaze_point.2).sum / cGroup.length
            + (cGroup.map fun s => s.right_eye.gaze_point.2).sum / cGroup.length) / 2)
            * 1000) :=
  C1_measured_position_is_mean (1000, 1000) 0 (1 / 10, 1 / 2) cGroup (by simp [cGroup])

/-- C1 counterexample: on the concrete group (target at relative
(1/10, 1/2) on a 1000×1000 screen; both-eye samples at x = 1/5, 1/5, 4/5 on
the target's horizontal line) the emitted measured position is the
coordinate mean (400, 500), while the median polar reconstruction of the
spec is (200, 500) — the claim's equation fails. -/
theorem C1_code_mean_ne_spec_median :
    (calculate_statistics (1000, 1000) 0 (1 / 10, 1 / 2) cGroup).mean_gaze_point
      ≠ spec_measured_median_position (1000, 1000) (1 / 10, 1 / 2) cGroup := by
  have hmean : (calculate_statistics (1000, 1000) 0 (1 / 10, 1 / 2) cGroup).mean_gaze_point
      = (400, 500) := by
    simp [calculate_statistics, group_mean_point, colMean, get_actual_from_relative,
      cGroup, cSample]
    norm_num
  have hspec : spec_measured_median_position (1000, 1000) (1 / 10, 1 / 2) cGroup
      = (200, 500) := by
    simp only [spec_measured_median_position, cGroup, cSample, get_actual_from_relative,
      List.map]
    norm_num
    rw [pm_along_x 100 (by norm_num), pm_along_x 700 (by norm_num),
      pp_along_x 100 (by norm_num), pp_along_x 700 (by norm_num)]
    rw [medianR_sorted_3 100 100 700 (by norm_num) (by norm_num),
      medianR_sorted_3 0 0 0 le_rfl le_rfl]
    norm_num [Real.cos_zero, Real.sin_zero]
  rw [hmean, hspec]
  intro hEq
  have h1 := congrArg Prod.fst hEq
  norm_num at h1

end PyETA
